import Mathlib

/-
  Formal model of the portfolio-simulator repository.

  Shallow embedding conventions:
  * Python floats are modelled as exact rationals (ℚ); the transcendental
    primitives used by Black-Scholes pricing (exp, log, sqrt, the standard
    normal CDF, and the real power `**`) are abstracted as a record of
    functions so that the algebraic structure of the pricing code can be
    stated and checked exactly.
  * Python dicts whose insertion order matters are modelled as association
    lists `List (String × ℚ)`.
  * Python code that can raise (the `ZeroDivisionError` in
    `Portfolio.withdraw`) is modelled with `Option`.
-/

set_option linter.unusedVariables false

namespace PortfolioSim

/-- Executable absolute value on ℚ, mirroring Python's `abs`. -/
def rat_abs (x : ℚ) : ℚ := if x < 0 then -x else x

theorem rat_abs_eq_abs (x : ℚ) : rat_abs x = |x| := by
  unfold rat_abs
  rcases lt_or_ge x 0 with h | h
  · simp [h, abs_of_neg h]
  · simp [not_lt.mpr h, abs_of_nonneg h]

/-- Executable model of Python's `str.lower()` on the ASCII tags used by the
repository (`"Buffer"`, `"Floor"`, ...). -/
def str_toLower (s : String) : String := ⟨s.data.map Char.toLower⟩

/-! ## `src/PortfolioSimulator_OneClick/src/structured_notes.py` -/

namespace structured_notes

/-- Note parameters shared by `BufferedNote` and `FlooredNote`
(`structured_notes.py`, class `StructuredNote`). -/
structure StructuredNote where
  participation_rate : ℚ
  protection_level : ℚ
  deriving DecidableEq

/-- `BufferedNote.calculate_return` (`structured_notes.py`, lines 46-95). -/
def BufferedNote.calculate_return (note : StructuredNote) (underlying_return : ℚ) : ℚ :=
  if underlying_return > 0 then
    underlying_return * note.participation_rate
  else
    let abs_return := rat_abs underlying_return
    if abs_return ≤ note.protection_level then 0
    else -(abs_return - note.protection_level)

/-- `FlooredNote.calculate_return` (`structured_notes.py`, lines 101-146). -/
def FlooredNote.calculate_return (note : StructuredNote) (underlying_return : ℚ) : ℚ :=
  if underlying_return > 0 then
    underlying_return * note.participation_rate
  else
    let max_loss := -note.protection_level
    max underlying_return max_loss

/-- `simple_note_payoff` (`structured_notes.py`, lines 170-202). -/
def simple_note_payoff (underlying_return participation_rate protection_level : ℚ)
    (protection_type : String) : ℚ :=
  let pt := str_toLower protection_type
  if underlying_return > 0 then underlying_return * participation_rate
  else if pt = "buffer" then
    (if rat_abs underlying_return ≤ protection_level then 0
     else -(rat_abs underlying_return - protection_level))
  else if pt = "floor" then max underlying_return (-protection_level)
  else
    (if rat_abs underlying_return ≤ protection_level then 0
     else -(rat_abs underlying_return - protection_level))

end structured_notes

open structured_notes

/-- C2: for a buffer-type note with participation rate `pr` and protection
level `p` and realized underlying return `u`, the note return is `u * pr`
when `u > 0`, `0` when `u ≤ 0` and `|u| ≤ p`, and `-(|u| - p)` when `u ≤ 0`
and `|u| > p`; `simple_note_payoff` with the `Buffer` protection type computes
the same function, and the spec's two worked examples
(`u = -0.08, p = 0.10 ↦ 0` and `u = -0.15, p = 0.10 ↦ -0.05`) hold. -/
theorem buffered_note_return_spec (pr p u : ℚ) :
    (BufferedNote.calculate_return ⟨pr, p⟩ u =
      if 0 < u then u * pr else if |u| ≤ p then 0 else -(|u| - p)) ∧
    (simple_note_payoff u pr p "Buffer" =
      if 0 < u then u * pr else if |u| ≤ p then 0 else -(|u| - p)) ∧
    BufferedNote.calculate_return ⟨pr, 1/10⟩ (-(8/100)) = 0 ∧
    BufferedNote.calculate_return ⟨pr, 1/10⟩ (-(15/100)) = -(5/100) := by
  refine ⟨?_, ?_, ?_, ?_⟩
  · simp only [BufferedNote.calculate_return, rat_abs_eq_abs]
  · have h : str_toLower "Buffer" = "buffer" := rfl
    simp only [simple_note_payoff, h, rat_abs_eq_abs]
    norm_num
  · norm_num [BufferedNote.calculate_return, rat_abs]
  · norm_num [BufferedNote.calculate_return, rat_abs]

/-- C3: for a floor-type note with participation rate `pr` and protection
level `p` and realized underlying return `u`, the note return is `u * pr`
when `u > 0` and `max u (-p)` when `u ≤ 0`; for positive returns the floor
note agrees with the buffer note (type-independent upside); and the spec's
worked examples (`u = -0.25, p = 0.10 ↦ -0.10` and
`u = -0.05, p = 0.10 ↦ -0.05`) hold. -/
theorem floored_note_return_spec (pr p u : ℚ) :
    (FlooredNote.calculate_return ⟨pr, p⟩ u =
      if 0 < u then u * pr else max u (-p)) ∧
    (0 < u → FlooredNote.calculate_return ⟨pr, p⟩ u =
      BufferedNote.calculate_return ⟨pr, p⟩ u) ∧
    FlooredNote.calculate_return ⟨pr, 1/10⟩ (-(25/100)) = -(10/100) ∧
    FlooredNote.calculate_return ⟨pr, 1/10⟩ (-(5/100)) = -(5/100) := by
  refine ⟨rfl, ?_, ?_, ?_⟩
  · intro hu
    simp [FlooredNote.calculate_return, BufferedNote.calculate_return, hu]
  · norm_num [FlooredNote.calculate_return]
  · norm_num [FlooredNote.calculate_return]

/-- Witness for C3: the type-independence hypothesis discharged at
`u = 0.08`, `pr = 0.9`, `p = 0.10`. -/
theorem floored_note_return_spec_witness :
    FlooredNote.calculate_return ⟨9/10, 1/10⟩ (8/100) =
      BufferedNote.calculate_return ⟨9/10, 1/10⟩ (8/100) :=
  (floored_note_return_spec (9/10) (1/10) (8/100)).2.1 (by norm_num)

/-! ## `src/PortfolioSimulator_OneClick/src/portfolio.py`

`Portfolio.withdraw` divides by `self.current_value`; when `current_value`
is zero and the requested amount is positive this raises
`ZeroDivisionError` in Python, so the embedded `withdraw` returns an
`Option`. All other operations are total. -/

/-- State of `Portfolio` (`portfolio.py`): target allocations, current and
previous total value, and per-asset dollar values. -/
structure Portfolio where
  allocations : List (String × ℚ)
  current_value : ℚ
  prev_value : ℚ
  asset_values : List (String × ℚ)
  deriving DecidableEq

/-- Sum of the per-asset values, i.e. Python's `sum(self.asset_values.values())`. -/
def total_asset_value (p : Portfolio) : ℚ :=
  (p.asset_values.map (fun a => a.2)).sum

/-- Sum of the allocation weights, i.e. `sum(self.allocations.values())`. -/
def alloc_total (allocations : List (String × ℚ)) : ℚ :=
  (allocations.map (fun a => a.2)).sum

/-- `Portfolio._validate_allocations` (`portfolio.py`, lines 33-41):
renormalize unless `np.isclose(total, 1.0, atol=1e-6)` holds; with numpy's
default `rtol=1e-5` that test is `|total - 1| ≤ 1e-6 + 1e-5 * |1.0|`. -/
def validate_allocations (allocations : List (String × ℚ)) : List (String × ℚ) :=
  let total := alloc_total allocations
  if rat_abs (total - 1) ≤ 1/1000000 + 1/100000 * rat_abs 1 then allocations
  else allocations.map (fun a => (a.1, a.2 / total))

/-- `Portfolio.rebalance` (`portfolio.py`, lines 43-50). -/
def Portfolio.rebalance (p : Portfolio) : Portfolio :=
  { p with asset_values := p.allocations.map (fun a => (a.1, p.current_value * a.2)) }

/-- `Portfolio.__init__` (`portfolio.py`, lines 10-31): store the (validated)
allocations and initial value, then rebalance to fill `asset_values`. -/
def Portfolio.init (initial_value : ℚ) (allocations : List (String × ℚ)) : Portfolio :=
  Portfolio.rebalance
    { allocations := validate_allocations allocations
      current_value := initial_value
      prev_value := initial_value
      asset_values := [] }

/-- `Portfolio.apply_returns` (`portfolio.py`, lines 52-81): grow each asset
present in `returns_dict` by `(1 + return)`, leave missing assets unchanged
(warning only), then recompute `current_value` as the sum. -/
def Portfolio.apply_returns (p : Portfolio) (returns_dict : List (String × ℚ)) : Portfolio :=
  let new_assets := p.asset_values.map (fun a =>
    (returns_dict.lookup a.1).elim a (fun ret => (a.1, a.2 * (1 + ret))))
  { p with
    prev_value := p.current_value
    asset_values := new_assets
    current_value := (new_assets.map (fun a => a.2)).sum }

/-- `Portfolio.withdraw` (`portfolio.py`, lines 83-114): non-positive requests
return 0 and leave the state unchanged; otherwise the request is capped at
`current_value` and deducted proportionally from every asset. The division
`actual_withdrawal / current_value` raises `ZeroDivisionError` when
`current_value = 0`, modelled here as `none`. -/
def Portfolio.withdraw (p : Portfolio) (amount : ℚ) : Option (ℚ × Portfolio) :=
  if amount ≤ 0 then some (0, p)
  else if p.current_value = 0 then none
  else
    let actual_withdrawal := min amount p.current_value
    let frac := actual_withdrawal / p.current_value
    some (actual_withdrawal,
      { p with
        asset_values := p.asset_values.map (fun a => (a.1, a.2 - a.2 * frac))
        current_value := p.current_value - actual_withdrawal })

/-- `Portfolio.get_asset_allocations` (`portfolio.py`, lines 131-136):
all-zero when `np.isclose(current_value, 0)` (i.e. `|cv| ≤ 1e-8` with numpy
defaults), otherwise each asset's share of `current_value`. -/
def Portfolio.get_asset_allocations (p : Portfolio) : List (String × ℚ) :=
  if rat_abs (p.current_value - 0) ≤ 1/100000000 + 1/100000 * rat_abs 0 then
    p.asset_values.map (fun a => (a.1, 0))
  else
    p.asset_values.map (fun a => (a.1, a.2 / p.current_value))

theorem sum_after_proportional_deduction (l : List (String × ℚ)) (r : ℚ) :
    ((l.map (fun a => (a.1, a.2 - a.2 * r))).map (fun a => a.2)).sum
      = (l.map (fun a => a.2)).sum - (l.map (fun a => a.2)).sum * r := by
  induction l with
  | nil => simp
  | cons x xs ih =>
    simp only [List.map_cons, List.sum_cons, ih]
    ring

/-- C4: if a portfolio's `current_value` equals the sum of its `asset_values`,
then after `apply_returns` followed by a successful `withdraw` the new
`current_value` again equals the sum of the new `asset_values` (exactly, in
the rational-arithmetic model): the proportional per-asset deduction and the
scalar deduction from `current_value` agree. -/
theorem apply_returns_withdraw_invariant (p : Portfolio) (returns_dict : List (String × ℚ))
    (amount w : ℚ) (p' : Portfolio)
    (hinv : p.current_value = total_asset_value p)
    (h : (p.apply_returns returns_dict).withdraw amount = some (w, p')) :
    p'.current_value = total_asset_value p' := by
  generalize hq : p.apply_returns returns_dict = q at h
  have hqinv : q.current_value = total_asset_value q := by
    subst hq
    rfl
  unfold Portfolio.withdraw at h
  split at h
  · rw [Option.some.injEq, Prod.mk.injEq] at h
    rw [← h.2]
    exact hqinv
  · split at h
    · exact absurd h (by simp)
    · rename_i hcv
      simp only [Option.some.injEq, Prod.mk.injEq] at h
      rw [← h.2]
      show q.current_value - min amount q.current_value
          = total_asset_value
              { q with
                asset_values := q.asset_values.map
                  (fun a => (a.1, a.2 - a.2 * (min amount q.current_value / q.current_value)))
                current_value := q.current_value - min amount q.current_value }
      unfold total_asset_value
      rw [sum_after_proportional_deduction]
      show q.current_value - min amount q.current_value
          = total_asset_value q - total_asset_value q
              * (min amount q.current_value / q.current_value)
      rw [← hqinv]
      field_simp

/-- Portfolio used in concrete instantiations: $100 split 60/40. -/
def hundredPortfolio : Portfolio := Portfolio.init 100 [("sp500", 6/10), ("bonds", 4/10)]

theorem hundredPortfolio_eq :
    hundredPortfolio =
      { allocations := [("sp500", 6/10), ("bonds", 4/10)]
        current_value := 100
        prev_value := 100
        asset_values := [("sp500", 60), ("bonds", 40)] } := by
  norm_num [hundredPortfolio, Portfolio.init, Portfolio.rebalance,
    validate_allocations, alloc_total, rat_abs]

/-- Result of applying a 50% sp500 return to `hundredPortfolio` and then
withdrawing 13: assets (60, 40) grow to (90, 40), total 130, and the
withdrawal removes 10% from each asset. -/
def wPortfolio : Portfolio :=
  { allocations := [("sp500", 6/10), ("bonds", 4/10)]
    current_value := 117
    prev_value := 100
    asset_values := [("sp500", 81), ("bonds", 36)] }

/-- Witness for C4: the invariant instantiated on `hundredPortfolio` with a
50% equity return and a withdrawal of 13. -/
theorem apply_returns_withdraw_invariant_witness :
    wPortfolio.current_value = total_asset_value wPortfolio :=
  apply_returns_withdraw_invariant hundredPortfolio [("sp500", 1/2)] 13 13 wPortfolio
    (by norm_num [hundredPortfolio, Portfolio.init, Portfolio.rebalance,
      validate_allocations, alloc_total, rat_abs, total_asset_value])
    (by
      rw [hundredPortfolio_eq]
      simp [wPortfolio, Portfolio.apply_returns, Portfolio.withdraw, List.lookup, min_def]
      norm_num)

/-- Portfolio whose `current_value` is zero. -/
def zeroPortfolio : Portfolio := Portfolio.init 0 [("sp500", 1)]

/-- C5 counterexample: the claim quantifies over every `current_value ≥ 0`,
but at `current_value = 0` a positive request does not return
`min(amount, current_value)`: the division by `current_value` raises
(`none` in the model), so the call is rejected rather than capped. -/
theorem withdraw_zero_value_counterexample :
    zeroPortfolio.current_value = 0 ∧ zeroPortfolio.withdraw 1 = none := by
  norm_num [zeroPortfolio, Portfolio.init, Portfolio.rebalance, Portfolio.withdraw,
    validate_allocations, alloc_total, rat_abs]

/-- C5 (amended): for `current_value ≥ 0` and requested `amount ≥ 0` with
`current_value > 0` or `amount = 0`, `withdraw` succeeds and returns
`min(amount, current_value)`, which never exceeds the pre-call
`current_value`; afterwards `current_value` equals the pre-call value minus
the amount withdrawn (exactly), so an over-large request is capped rather
than rejected. -/
theorem withdraw_caps_at_current_value (p : Portfolio) (amount : ℚ)
    (hv : 0 ≤ p.current_value) (ha : 0 ≤ amount)
    (hok : 0 < p.current_value ∨ amount = 0) :
    ∃ p', p.withdraw amount = some (min amount p.current_value, p') ∧
      min amount p.current_value ≤ p.current_value ∧
      p'.current_value = p.current_value - min amount p.current_value := by
  rcases lt_or_le 0 amount with hpos | hz
  · have hcv : 0 < p.current_value := hok.resolve_right (fun h => absurd h hpos.ne')
    refine ⟨{ p with
        asset_values := p.asset_values.map
          (fun a => (a.1, a.2 - a.2 * (min amount p.current_value / p.current_value)))
        current_value := p.current_value - min amount p.current_value }, ?_, ?_, ?_⟩
    · unfold Portfolio.withdraw
      rw [if_neg (not_le.mpr hpos), if_neg hcv.ne']
    · exact min_le_right _ _
    · rfl
  · have h0 : amount = 0 := le_antisymm hz ha
    subst h0
    refine ⟨p, ?_, min_le_right _ _, ?_⟩
    · unfold Portfolio.withdraw
      rw [if_pos le_rfl, min_eq_left hv]
    · rw [min_eq_left hv, sub_zero]

/-- Witness for C5: an over-large request of 150 against a $100 portfolio is
capped at 100 and the portfolio value drops to 0. -/
theorem withdraw_caps_at_current_value_witness :
    ∃ p', hundredPortfolio.withdraw 150
        = some (min 150 hundredPortfolio.current_value, p') ∧
      min 150 hundredPortfolio.current_value ≤ hundredPortfolio.current_value ∧
      p'.current_value = hundredPortfolio.current_value
        - min 150 hundredPortfolio.current_value :=
  withdraw_caps_at_current_value hundredPortfolio 150
    (by norm_num [hundredPortfolio, Portfolio.init, Portfolio.rebalance,
      validate_allocations, alloc_total, rat_abs])
    (by norm_num)
    (Or.inl (by norm_num [hundredPortfolio, Portfolio.init, Portfolio.rebalance,
      validate_allocations, alloc_total, rat_abs]))

/-- C10: `Portfolio.withdraw` is partial exactly as the division dictates:
with `current_value = 0` and a positive request it divides by zero (`none`);
a non-positive request returns 0 and leaves the portfolio unchanged; and
under the precondition `current_value > 0` the call always succeeds. -/
theorem withdraw_totality (p : Portfolio) (amount : ℚ) :
    (p.current_value = 0 → 0 < amount → p.withdraw amount = none) ∧
    (amount ≤ 0 → p.withdraw amount = some (0, p)) ∧
    (0 < p.current_value → ∃ w p', p.withdraw amount = some (w, p')) := by
  refine ⟨?_, ?_, ?_⟩
  · intro hcv hamt
    simp [Portfolio.withdraw, hcv, not_le.mpr hamt]
  · intro h
    simp [Portfolio.withdraw, h]
  · intro hcv
    unfold Portfolio.withdraw
    rcases le_or_lt amount 0 with h | h
    · exact ⟨0, p, by rw [if_pos h]⟩
    · refine ⟨min amount p.current_value,
        { p with
          asset_values := p.asset_values.map
            (fun a => (a.1, a.2 - a.2 * (min amount p.current_value / p.current_value)))
          current_value := p.current_value - min amount p.current_value }, ?_⟩
      rw [if_neg (not_le.mpr h), if_neg hcv.ne']

/-- Witness for C10: a positive request against a zero-value portfolio fails,
a negative request is a no-op, and a positive request against a positive
portfolio succeeds. -/
theorem withdraw_totality_witness :
    zeroPortfolio.withdraw 2 = none ∧
    hundredPortfolio.withdraw (-1) = some (0, hundredPortfolio) ∧
    ∃ w p', hundredPortfolio.withdraw 10 = some (w, p') :=
  ⟨(withdraw_totality zeroPortfolio 2).1
      (by norm_num [zeroPortfolio, Portfolio.init, Portfolio.rebalance,
        validate_allocations, alloc_total, rat_abs])
      (by norm_num),
   (withdraw_totality hundredPortfolio (-1)).2.1 (by norm_num),
   (withdraw_totality hundredPortfolio 10).2.2
      (by norm_num [hundredPortfolio, Portfolio.init, Portfolio.rebalance,
        validate_allocations, alloc_total, rat_abs])⟩

theorem rebalance_then_normalize (l : List (String × ℚ)) (c : ℚ) (hc : c ≠ 0) :
    (l.map (fun a => (a.1, c * a.2))).map (fun a => (a.1, a.2 / c)) = l := by
  induction l with
  | nil => rfl
  | cons x xs ih =>
    simp only [List.map_cons, ih, mul_comm c x.2, mul_div_assoc,
      div_self hc, mul_one]

/-- Portfolio whose single allocation weight 1.00001 is close enough to 1 for
`np.isclose(total, 1.0, atol=1e-6)` (which also adds `rtol=1e-5`) that the
constructor does not renormalize it. -/
def skewedPortfolio : Portfolio := Portfolio.init 100 [("sp500", 100001/100000)]

/-- C8 counterexample: the weight 1.00001 does not sum to 1 within 1e-6, yet
the constructor leaves it unrenormalized (the `np.isclose` test passes thanks
to the default `rtol=1e-5`), and `rebalance` followed by
`get_asset_allocations` returns 1.00001, which differs from the normalized
weight `1.00001/1.00001 = 1` by 1e-5 > 1e-6. -/
theorem rebalance_allocations_counterexample :
    skewedPortfolio.rebalance.get_asset_allocations = [("sp500", 100001/100000)] ∧
    ¬ rat_abs ((100001:ℚ)/100000 - (100001/100000) / (100001/100000)) ≤ 1/1000000 := by
  constructor
  · norm_num [skewedPortfolio, Portfolio.init, Portfolio.rebalance,
      Portfolio.get_asset_allocations, validate_allocations, alloc_total, rat_abs]
  · norm_num [rat_abs]

/-- C8 (amended): the constructor renormalizes proportionally (never
rejecting) exactly when `|sum - 1| > 1e-6 + 1e-5` (the `np.isclose` test with
`atol=1e-6` and numpy's default `rtol=1e-5`); for positive weights and
`current_value > 1e-8` (the zero-value guard of `get_asset_allocations`),
`rebalance` followed by `get_asset_allocations` returns exactly the stored
weights — which are exactly the normalized weights whenever renormalization
fired — and `rebalance` is idempotent. -/
theorem rebalance_allocations_roundtrip (initial_value : ℚ)
    (allocations : List (String × ℚ))
    (hpos : ∀ a ∈ allocations, 0 < a.2)
    (hv : 1/100000000 < initial_value) :
    (Portfolio.init initial_value allocations).rebalance.get_asset_allocations
      = (Portfolio.init initial_value allocations).allocations ∧
    (¬ rat_abs (alloc_total allocations - 1) ≤ 1/1000000 + 1/100000 * rat_abs 1 →
      (Portfolio.init initial_value allocations).allocations
        = allocations.map (fun a => (a.1, a.2 / alloc_total allocations))) ∧
    (Portfolio.init initial_value allocations).rebalance.rebalance
      = (Portfolio.init initial_value allocations).rebalance := by
  have hv0 : (0:ℚ) < initial_value := lt_trans (by norm_num) hv
  refine ⟨?_, ?_, rfl⟩
  · show Portfolio.get_asset_allocations
        { allocations := validate_allocations allocations
          current_value := initial_value
          prev_value := initial_value
          asset_values := (validate_allocations allocations).map
            (fun a => (a.1, initial_value * a.2)) }
      = validate_allocations allocations
    unfold Portfolio.get_asset_allocations
    rw [if_neg]
    · exact rebalance_then_normalize _ _ hv0.ne'
    · simp only [sub_zero, rat_abs, if_neg (not_lt.mpr hv0.le), if_neg (by norm_num : ¬ (0:ℚ) < 0)]
      rw [not_le]
      calc (1:ℚ)/100000000 + 1/100000 * -0 = 1/100000000 := by ring
        _ < initial_value := hv
  · intro hfar
    show validate_allocations allocations
        = allocations.map (fun a => (a.1, a.2 / alloc_total allocations))
    unfold validate_allocations
    rw [if_neg hfar]

/-- Witness for C8: weights (0.6, 0.6) sum to 1.2, are renormalized to
(0.5, 0.5) by the constructor, and are returned exactly by
`get_asset_allocations` after `rebalance`. -/
theorem rebalance_allocations_roundtrip_witness :
    (Portfolio.init 100 [("a", 3/5), ("b", 3/5)]).rebalance.get_asset_allocations
      = (Portfolio.init 100 [("a", 3/5), ("b", 3/5)]).allocations ∧
    (¬ rat_abs (alloc_total [("a", 3/5), ("b", 3/5)] - 1)
        ≤ 1/1000000 + 1/100000 * rat_abs 1 →
      (Portfolio.init 100 [("a", 3/5), ("b", 3/5)]).allocations
        = [("a", (3:ℚ)/5), ("b", 3/5)].map
            (fun a => (a.1, a.2 / alloc_total [("a", 3/5), ("b", 3/5)]))) ∧
    (Portfolio.init 100 [("a", 3/5), ("b", 3/5)]).rebalance.rebalance
      = (Portfolio.init 100 [("a", 3/5), ("b", 3/5)]).rebalance :=
  rebalance_allocations_roundtrip 100 [("a", 3/5), ("b", 3/5)]
    (by
      intro a ha
      simp only [List.mem_cons, List.not_mem_nil, or_false] at ha
      rcases ha with rfl | rfl <;> norm_num)
    (by norm_num)

/-! ## `src/note_calculator.py`

The pricing code evaluates `np.exp`, `np.log`, `np.sqrt`, the float power
`**` and `scipy.stats.norm.cdf`. These transcendental primitives are
abstracted as a record of rational functions, so the algebraic structure of
the code — which is what the claims are about — is embedded exactly. -/

namespace note_calculator

/-- Transcendental primitives used by `note_calculator.py`. -/
structure RealOps where
  exp : ℚ → ℚ
  log : ℚ → ℚ
  sqrt : ℚ → ℚ
  cdf : ℚ → ℚ
  pow : ℚ → ℚ → ℚ

/-- The divisor of `d1` in both Black-Scholes functions:
`adjusted_sigma * np.sqrt(T)`. -/
def bs_d1_denominator (ops : RealOps) (adjusted_sigma T : ℚ) : ℚ :=
  adjusted_sigma * ops.sqrt T

/-- `black_scholes_call` (`note_calculator.py`, lines 21-40). -/
def black_scholes_call (ops : RealOps) (S K T r sigma div_yield iv_factor : ℚ) : ℚ :=
  let adjusted_sigma := sigma * iv_factor
  let S_adj := S * ops.exp (-div_yield * T)
  let d1 := (ops.log (S_adj / K) + (r + 1/2 * adjusted_sigma^2) * T)
      / bs_d1_denominator ops adjusted_sigma T
  let d2 := d1 - adjusted_sigma * ops.sqrt T
  S_adj * ops.cdf d1 - K * ops.exp (-r * T) * ops.cdf d2

/-- `black_scholes_put` (`note_calculator.py`, lines 42-55). -/
def black_scholes_put (ops : RealOps) (S K T r sigma div_yield iv_factor : ℚ) : ℚ :=
  let adjusted_sigma := sigma * iv_factor
  let S_adj := S * ops.exp (-div_yield * T)
  let d1 := (ops.log (S_adj / K) + (r + 1/2 * adjusted_sigma^2) * T)
      / bs_d1_denominator ops adjusted_sigma T
  let d2 := d1 - adjusted_sigma * ops.sqrt T
  K * ops.exp (-r * T) * ops.cdf (-d2) - S_adj * ops.cdf (-d1)

/-- `calculate_participation_rate` (`note_calculator.py`, lines 57-87).
The `crisis_iv_factor` local is computed and never used, exactly as in the
source. -/
def calculate_participation_rate (ops : RealOps)
    (start_price rf_rate sigma protection_level term iv_factor
     funding_spread div_yield : ℚ) : ℚ :=
  let funding_rf := rf_rate + funding_spread
  let bond_price := 1 / ops.pow (1 + funding_rf) term
  let bond_capital := 1 - bond_price
  let K_put := start_price * (1 - protection_level)
  let put_premium :=
    black_scholes_put ops start_price K_put term rf_rate sigma div_yield iv_factor
  let call_price :=
    black_scholes_call ops start_price start_price term rf_rate sigma div_yield iv_factor
  let crisis_iv_factor := min 1 (9/10 + max 0 ((sigma - 20/100) * (5/10)))
  let total_available := bond_capital + put_premium / start_price
  let participation := total_available / (call_price / start_price)
  min participation 2

/-- Modelled from the spec (§4.2, step 2): protective put priced as
`K e^{-rT} Φ(-d2) - S_adj Φ(-d1)` with adjusted volatility `σ·ivFactor` and
dividend-adjusted spot `S_adj = S e^{-qT}`. -/
def put_price_spec (ops : RealOps) (S K T r sigma q ivFactor : ℚ) : ℚ :=
  let sigmaAdj := sigma * ivFactor
  let S_adj := S * ops.exp (-q * T)
  let d1 := (ops.log (S_adj / K) + (r + 1/2 * sigmaAdj^2) * T) / (sigmaAdj * ops.sqrt T)
  let d2 := d1 - sigmaAdj * ops.sqrt T
  K * ops.exp (-r * T) * ops.cdf (-d2) - S_adj * ops.cdf (-d1)

/-- Modelled from the spec (§4.2, step 3): at-the-money call priced the same
way, `S_adj Φ(d1) - K e^{-rT} Φ(d2)`. -/
def call_price_spec (ops : RealOps) (S K T r sigma q ivFactor : ℚ) : ℚ :=
  let sigmaAdj := sigma * ivFactor
  let S_adj := S * ops.exp (-q * T)
  let d1 := (ops.log (S_adj / K) + (r + 1/2 * sigmaAdj^2) * T) / (sigmaAdj * ops.sqrt T)
  let d2 := d1 - sigmaAdj * ops.sqrt T
  S_adj * ops.cdf d1 - K * ops.exp (-r * T) * ops.cdf d2

/-- Modelled from the spec (§4.2, steps 1-4): funding rate `r + spread`,
`bond_capital = 1 - 1/(1+rf)^T`, put struck at `S(1-p)`, ATM call struck at
`S`, and `participation = (bond_capital + put/S)/(call/S)` clamped to 2.0. -/
def participation_rate_spec (ops : RealOps) (S r sigma p T ivFactor spread q : ℚ) : ℚ :=
  let bond_capital := 1 - 1 / ops.pow (1 + (r + spread)) T
  let put_price := put_price_spec ops S (S * (1 - p)) T r sigma q ivFactor
  let call_price := call_price_spec ops S S T r sigma q ivFactor
  min ((bond_capital + put_price / S) / (call_price / S)) 2

end note_calculator

open note_calculator

/-- C1: for every choice of transcendental primitives and every spot `S`,
risk-free rate `r`, volatility `sigma`, protection level `p`, term `T`,
iv factor, funding spread and dividend yield `q` (in particular for the
`S > 0`, `sigma > 0`, `p ∈ (0,1)`, `T > 0` range the claim quantifies over),
the code's participation rate equals the spec formula
`min ((bond_capital + put/S)/(call/S)) 2` with `bond_capital = 1-1/(1+r+spread)^T`,
the put struck at `S(1-p)` and the ATM call struck at `S`, both Black-Scholes
prices with volatility `sigma*ivFactor` and dividend-adjusted spot
`S e^{-qT}`; and the result never exceeds the 2.0 ceiling. -/
theorem participation_rate_matches_spec (ops : RealOps)
    (S r sigma p T ivFactor spread q : ℚ) :
    calculate_participation_rate ops S r sigma p T ivFactor spread q
      = participation_rate_spec ops S r sigma p T ivFactor spread q ∧
    calculate_participation_rate ops S r sigma p T ivFactor spread q ≤ 2 := by
  constructor
  · rfl
  · simp only [calculate_participation_rate]
    exact min_le_right _ _

/-- Primitive functions used to instantiate the pricing model on concrete
inputs. -/
def testOps : RealOps :=
  { exp := fun _ => 1
    log := fun _ => 0
    sqrt := fun _ => 1
    cdf := fun _ => 1/2
    pow := fun x _ => x }

/-- C6: the pricing code has no guard for `sigma = 0` (or `T = 0`): at
`sigma = 0` the `d1`/`d2` divisor `adjusted_sigma * sqrt(T)` is exactly `0`,
yet `calculate_participation_rate` still returns a value instead of
signalling a configuration error (here, with the total-division convention
of the embedding, the value 0; in the numpy code, nan/inf propagate without
raising). Evaluated at `S=100, r=0.05, sigma=0, p=0.10, T=1, ivFactor=0.9,
spread=0.015, q=0.02`. -/
theorem sigma_zero_unguarded_division :
    bs_d1_denominator testOps ((0:ℚ) * (9/10)) 1 = 0 ∧
    calculate_participation_rate testOps 100 (5/100) 0 (1/10) 1 (9/10) (15/1000) (2/100)
      = 0 := by
  constructor
  · norm_num [bs_d1_denominator, testOps]
  · norm_num [calculate_participation_rate, black_scholes_put, black_scholes_call,
      bs_d1_denominator, testOps, min_def, max_def]

/-! ## `src/src/retirement.py` -/

namespace retirement

/-- The `rmd_factors` table (`retirement.py`, lines 142-148): simplified IRS
Uniform Lifetime divisors for ages 72-100. -/
def rmd_factors : List (ℤ × ℚ) :=
  [(72, 274/10), (73, 265/10), (74, 255/10), (75, 246/10), (76, 237/10), (77, 229/10),
   (78, 220/10), (79, 211/10), (80, 202/10), (81, 194/10), (82, 185/10), (83, 177/10),
   (84, 168/10), (85, 160/10), (86, 152/10), (87, 144/10), (88, 137/10), (89, 129/10),
   (90, 122/10), (91, 115/10), (92, 108/10), (93, 101/10), (94, 95/10), (95, 89/10),
   (96, 84/10), (97, 78/10), (98, 73/10), (99, 68/10), (100, 64/10)]

/-- State of `RMDWithdrawal` (`retirement.py`): the configured starting age
and the `start_year` inherited from `WithdrawalStrategy.__init__`
(`params.get('start_year', None)`). -/
structure RMDWithdrawal where
  starting_age : ℤ
  start_year : Option ℤ

/-- The value of `self.current_age` used by `calculate_withdrawal`:
updated to `starting_age + (current_year - start_year)` when `start_year`
is set, otherwise left at its initial value `starting_age`. -/
def RMDWithdrawal.current_age (s : RMDWithdrawal) (current_year : ℤ) : ℤ :=
  s.start_year.elim s.starting_age (fun sy => s.starting_age + (current_year - sy))

/-- `RMDWithdrawal.calculate_withdrawal` (`retirement.py`, lines 152-185):
zero before RMDs begin; otherwise `portfolio_value / divisor` where the
divisor is `rmd_factors.get(min(age, 100), 6.4)`. -/
def RMDWithdrawal.calculate_withdrawal (s : RMDWithdrawal) (portfolio_value : ℚ)
    (current_year : ℤ) : ℚ :=
  let age := s.current_age current_year
  if age < s.starting_age then 0
  else
    let lookup_age := min age 100
    let divisor := (rmd_factors.lookup lookup_age).getD (64/10)
    portfolio_value / divisor

theorem rmd_lookup_covers_table (A : ℤ) (h2 : 72 ≤ A) (h3 : A ≤ 100) :
    ∃ d, List.lookup A rmd_factors = some d := by
  interval_cases A <;> exact ⟨_, rfl⟩

theorem rmd_lookup_at_100 : List.lookup (100:ℤ) rmd_factors = some (64/10) := rfl

end retirement

open retirement

/-- C9: for an RMD strategy with `starting_age` and `start_year = sy`, at
calendar year `y` the age is `starting_age + (y - sy)`; an age below
`starting_age` yields a withdrawal of exactly 0; an age in the 72-100 table
range (at or past `starting_age`) yields `portfolio_value / divisor(age)`
with the divisor taken from the fixed table; an age above 100 reuses the
age-100 factor 6.4; and at age 80 the divisor is 20.2, so a $500,000
portfolio yields `500000 / 20.2 ≈ $24,752.48` (within one cent). -/
theorem rmd_withdrawal_spec (starting_age sy y : ℤ) (pv : ℚ) :
    (starting_age + (y - sy) < starting_age →
      RMDWithdrawal.calculate_withdrawal ⟨starting_age, some sy⟩ pv y = 0) ∧
    (starting_age ≤ starting_age + (y - sy) →
      72 ≤ starting_age + (y - sy) →
      starting_age + (y - sy) ≤ 100 →
      ∃ d, List.lookup (starting_age + (y - sy)) rmd_factors = some d ∧
        RMDWithdrawal.calculate_withdrawal ⟨starting_age, some sy⟩ pv y = pv / d) ∧
    (starting_age ≤ starting_age + (y - sy) →
      100 < starting_age + (y - sy) →
      RMDWithdrawal.calculate_withdrawal ⟨starting_age, some sy⟩ pv y = pv / (64/10)) ∧
    RMDWithdrawal.calculate_withdrawal ⟨72, some 2020⟩ 500000 2028 = 500000 / (202/10) ∧
    |(500000:ℚ) / (202/10) - 2475248/100| < 1/100 := by
  have hca : RMDWithdrawal.current_age ⟨starting_age, some sy⟩ y
      = starting_age + (y - sy) := rfl
  refine ⟨?_, ?_, ?_, ?_, ?_⟩
  · intro h
    unfold RMDWithdrawal.calculate_withdrawal
    rw [hca, if_pos h]
  · intro h1 h2 h3
    obtain ⟨d, hd⟩ := rmd_lookup_covers_table _ h2 h3
    refine ⟨d, hd, ?_⟩
    unfold RMDWithdrawal.calculate_withdrawal
    rw [hca, if_neg (not_lt.mpr h1), min_eq_left h3]
    show pv / ((List.lookup (starting_age + (y - sy)) rmd_factors).getD (64/10)) = pv / d
    rw [hd, Option.getD_some]
  · intro h1 h4
    unfold RMDWithdrawal.calculate_withdrawal
    rw [hca, if_neg (not_lt.mpr h1), min_eq_right h4.le]
    show pv / ((List.lookup (100:ℤ) rmd_factors).getD (64/10)) = pv / (64/10)
    rw [rmd_lookup_at_100, Option.getD_some]
  · rfl
  · rw [abs_lt]
    constructor <;> norm_num

/-- Witness for C9: the three conditional branches discharged at concrete
ages 67 (before RMDs), 80 (table lookup) and 177 (past the table). -/
theorem rmd_withdrawal_spec_witness :
    RMDWithdrawal.calculate_withdrawal ⟨72, some 2020⟩ 1000000 2015 = 0 ∧
    (∃ d, List.lookup ((72:ℤ) + (2028 - 2020)) rmd_factors = some d ∧
      RMDWithdrawal.calculate_withdrawal ⟨72, some 2020⟩ 500000 2028 = 500000 / d) ∧
    RMDWithdrawal.calculate_withdrawal ⟨72, some 2020⟩ 500000 2125 = 500000 / (64/10) :=
  ⟨(rmd_withdrawal_spec 72 2020 2015 1000000).1 (by norm_num),
   (rmd_withdrawal_spec 72 2020 2028 500000).2.1 (by norm_num) (by norm_num) (by norm_num),
   (rmd_withdrawal_spec 72 2020 2125 500000).2.2.1 (by norm_num) (by norm_num)⟩

/-! ## `src/run_simulations.py` -/

namespace run_simulations

/-- One named portfolio allocation from the sweep parameter file. -/
structure PortfolioAllocation where
  equity : ℚ
  notes : ℚ
  bonds : ℚ

/-- The parameter axes consumed by `generate_simulation_parameters`. -/
structure SweepConfig where
  start_years : List ℤ
  time_horizons : List ℤ
  portfolio_allocations : List (String × PortfolioAllocation)
  protection_levels : List ℚ
  withdrawal_rates : List ℚ

/-- The structural fields of one generated parameter dict (the metadata
strings `sim_id`, `parameter_file`, `run_timestamp` and the
`initial_conditions` pass-through fields carry no claim content and are
omitted). -/
structure SimParams where
  start_year : ℤ
  portfolio_type : String
  equity_allocation : ℚ
  note_allocation : ℚ
  bond_allocation : ℚ
  protection_level : Option ℚ
  withdrawal_rate : ℚ
  time_horizon : ℤ

/-- `generate_simulation_parameters` (`run_simulations.py`, lines 170-246):
cross-product over start years, horizons, portfolio types, protection levels
(only for portfolios holding notes; one `None` pass otherwise) and
withdrawal rates, skipping any `(start_year, horizon)` with
`start_year + horizon > 2024` ("Assuming data ends in 2024"). -/
def generate_simulation_parameters (cfg : SweepConfig) : List SimParams :=
  cfg.start_years.flatMap (fun start_year =>
    cfg.time_horizons.flatMap (fun horizon =>
      if start_year + horizon > 2024 then []
      else
        cfg.portfolio_allocations.flatMap (fun pt =>
          if pt.2.notes = 0 then
            cfg.withdrawal_rates.map (fun withdrawal_rate =>
              { start_year := start_year
                portfolio_type := pt.1
                equity_allocation := pt.2.equity
                note_allocation := pt.2.notes
                bond_allocation := pt.2.bonds
                protection_level := none
                withdrawal_rate := withdrawal_rate
                time_horizon := horizon })
          else
            cfg.protection_levels.flatMap (fun protection_level =>
              cfg.withdrawal_rates.map (fun withdrawal_rate =>
                { start_year := start_year
                  portfolio_type := pt.1
                  equity_allocation := pt.2.equity
                  note_allocation := pt.2.notes
                  bond_allocation := pt.2.bonds
                  protection_level := some protection_level
                  withdrawal_rate := withdrawal_rate
                  time_horizon := horizon })))))

end run_simulations

open run_simulations

/-- C7: every parameter combination produced by
`generate_simulation_parameters` satisfies `start_year + horizon ≤ 2024`
(the code's data-range bound): out-of-range combinations are skipped during
enumeration and therefore never become simulations. -/
theorem sweep_skips_out_of_range (cfg : SweepConfig) (q : SimParams)
    (hq : q ∈ generate_simulation_parameters cfg) :
    q.start_year + q.time_horizon ≤ 2024 := by
  unfold generate_simulation_parameters at hq
  simp only [List.mem_flatMap] at hq
  obtain ⟨sy, hsy, hq⟩ := hq
  obtain ⟨hz, hhz, hq⟩ := hq
  by_cases hgt : sy + hz > 2024
  · rw [if_pos hgt] at hq
    exact absurd hq (List.not_mem_nil q)
  · rw [if_neg hgt] at hq
    push_neg at hgt
    simp only [List.mem_flatMap] at hq
    obtain ⟨pt, hpt, hq⟩ := hq
    split at hq
    · simp only [List.mem_map] at hq
      obtain ⟨wr, hwr, hq⟩ := hq
      rw [← hq]
      exact hgt
    · simp only [List.mem_flatMap, List.mem_map] at hq
      obtain ⟨pl, hpl, wr, hwr, hq⟩ := hq
      rw [← hq]
      exact hgt

/-- Sweep configuration used to instantiate C7. -/
def wConfig : SweepConfig :=
  { start_years := [2000]
    time_horizons := [10]
    portfolio_allocations := [("traditional", ⟨6/10, 0, 4/10⟩)]
    protection_levels := [1/10]
    withdrawal_rates := [4/100] }

/-- The single combination generated from `wConfig`. -/
def wSim : SimParams :=
  { start_year := 2000
    portfolio_type := "traditional"
    equity_allocation := 6/10
    note_allocation := 0
    bond_allocation := 4/10
    protection_level := none
    withdrawal_rate := 4/100
    time_horizon := 10 }

/-- Witness for C7: the membership hypothesis discharged on the concrete
one-combination sweep `wConfig`. -/
theorem sweep_skips_out_of_range_witness :
    wSim ∈ generate_simulation_parameters wConfig ∧
    wSim.start_year + wSim.time_horizon ≤ 2024 :=
  have hmem : wSim ∈ generate_simulation_parameters wConfig := by
    simp [wSim, wConfig, generate_simulation_parameters]
  ⟨hmem, sweep_skips_out_of_range wConfig wSim hmem⟩

end PortfolioSim
